import Mathlib

/-!
Verification of the fetch-and-cache client (`src/services/api.js`) and the
view-state controller (`src/App.jsx`) of the spain-towers-visualizer
repository, as a shallow embedding in Lean.

Time is modelled in milliseconds as `Nat` (the JS code only ever compares
`now - timestamp` against positive constants, and `Date.now()` is
non-decreasing, so truncated `Nat` subtraction agrees with JS number
subtraction on every comparison the code performs).  The payload type is a
type parameter `α`, because `loadMapData` never inspects the parsed body.
The network is modelled as an oracle value `FetchOutcome` describing how the
single `fetch` of one call resolves or rejects.
-/

set_option autoImplicit false

namespace SpainTowers

/-- A cache entry: the object `{ data, timestamp }` stored by
`CACHE.set(url, { data, timestamp: Date.now() })` (api.js lines 87-90). -/
structure CacheEntry (α : Type) where
  data : α
  timestamp : Nat
deriving DecidableEq, Repr

/-- The module-level `const CACHE = new Map()` (api.js line 14), modelled as an
association list from locator strings to entries.  JS `Map` semantics (at most
one entry per key) is recovered as the `keysNodup` invariant proved below. -/
abbrev Cache (α : Type) := List (String × CacheEntry α)

/-- `const CACHE_DURATION = 5 * 60 * 1000` (api.js line 22): the TTL, 5 minutes
in milliseconds. -/
def CACHE_DURATION : Nat := 5 * 60 * 1000

/-- The `60000` millisecond period passed to `setInterval` for the periodic
cache cleanup (api.js line 150). -/
def SWEEP_INTERVAL_MS : Nat := 60000

/-- The hard request timeout in milliseconds passed to `AbortSignal.timeout`
(api.js line 60); when it fires, the fetch rejects with an error named
`TimeoutError`. -/
def REQUEST_TIMEOUT_MS : Nat := 10000

/-- `CACHE.get(url)` on the association-list model: the first pair whose key
equals `url`, if any. -/
def cacheGet {α : Type} : Cache α → String → Option (CacheEntry α)
  | [], _ => none
  | (k, v) :: rest, url => if k = url then some v else cacheGet rest url

/-- `CACHE.set(url, e)`: JS `Map.set` replaces the value in place when the key
is present and appends a new pair otherwise. -/
def cacheSet {α : Type} : Cache α → String → CacheEntry α → Cache α
  | [], url, e => [(url, e)]
  | (k, v) :: rest, url, e =>
      if k = url then (url, e) :: rest else (k, v) :: cacheSet rest url e

/-- The keys of the cache are pairwise distinct (the `Map` shape invariant). -/
def keysNodup {α : Type} (c : Cache α) : Prop := (c.map Prod.fst).Nodup

/-- Is `pat` a prefix of `l`?  Helper for the JS `String.prototype.includes`
test used by the catch block. -/
def listStartsWith : List Char → List Char → Bool
  | _, [] => true
  | [], _ :: _ => false
  | a :: as, b :: bs => a == b && listStartsWith as bs

/-- Does `pat` occur as a contiguous run inside `l`? -/
def listContains : List Char → List Char → Bool
  | [], pat => pat.isEmpty
  | a :: as, pat => listStartsWith (a :: as) pat || listContains as pat

/-- JS `hay.includes(pat)` (substring test), on the character lists of the two
strings. -/
def strContains (hay pat : String) : Bool := listContains hay.data pat.data

/-- How the single `fetch` of one `loadMapData` call turns out:
either the promise rejects with a JS error carrying a `name` and a `message`
(`TimeoutError` from `AbortSignal.timeout`, `AbortError`, `TypeError`, ...),
or it resolves with a response carrying an HTTP status, a status text, and a
body whose JSON parse either succeeds or fails with a message. -/
inductive BodyResult (α : Type) where
  | parsed (data : α)
  | parseError (message : String)
deriving DecidableEq, Repr

inductive FetchOutcome (α : Type) where
  | rejects (name : String) (message : String)
  | resolves (status : Nat) (statusText : String) (body : BodyResult α)
deriving DecidableEq, Repr

/-- The value a `loadMapData` call settles with: the resolved payload, or the
message of the `Error` it throws. -/
inductive LoadOutcome (α : Type) where
  | ok (data : α)
  | error (message : String)
deriving DecidableEq, Repr

/-- `response.ok`: status in the inclusive 200-299 range. -/
def responseOk (status : Nat) : Bool := 200 ≤ status && status ≤ 299

/-- Message thrown on a timeout (api.js line 105). -/
def timeoutMessage : String := "El servidor tardó demasiado en responder"

/-- Message thrown on cancellation (api.js line 107). -/
def cancelledMessage : String := "La petición fue cancelada"

/-- Message thrown when the caught error message mentions HTTP
(api.js line 109). -/
def serverErrorMessage (m : String) : String := "Error del servidor: " ++ m

/-- The catch-all connection-failure message (api.js line 111). -/
def connectionMessage : String := "Error de conexión. Verifica tu internet."

/-- The message of the error thrown on a non-ok response status:
`HTTP ${response.status}: ${response.statusText}` (api.js line 70). -/
def httpStatusMessage (status : Nat) (statusText : String) : String :=
  "HTTP " ++ toString status ++ ": " ++ statusText

/-- The catch block of `loadMapData` (api.js lines 102-113): dispatch on the
caught error's `name`, then on whether its `message` contains `'HTTP'`. -/
def classifyError (name message : String) : String :=
  if name = "TimeoutError" then timeoutMessage
  else if name = "AbortError" then cancelledMessage
  else if strContains message "HTTP" then serverErrorMessage message
  else connectionMessage

/-- The outcome of one `loadMapData` call: its settled value, the cache after
the call, and whether the call reached the network (`fetch` was invoked). -/
structure LoadResult (α : Type) where
  result : LoadOutcome α
  cache : Cache α
  networkAccess : Bool
deriving DecidableEq, Repr

/-- The try/catch body of `loadMapData` that runs after a cache miss
(api.js lines 46-113): issue the fetch; a rejected fetch is classified by the
catch block; a non-ok status throws `HTTP ...` which the catch block sees with
name `"Error"`; a JSON parse failure throws a `SyntaxError` which the catch
block also sees; on success the entry is stored with the current time. -/
def fetchAndCache {α : Type} (c : Cache α) (now : Nat) (url : String)
    (net : FetchOutcome α) : LoadResult α :=
  match net with
  | .rejects name message => ⟨.error (classifyError name message), c, true⟩
  | .resolves status statusText body =>
      if !responseOk status then
        ⟨.error (classifyError "Error" (httpStatusMessage status statusText)), c, true⟩
      else
        match body with
        | .parseError m => ⟨.error (classifyError "SyntaxError" m), c, true⟩
        | .parsed data => ⟨.ok data, cacheSet c url ⟨data, now⟩, true⟩

/-- `loadMapData(url)` (api.js lines 31-114): serve from the cache when the
entry is younger than `CACHE_DURATION`, otherwise fetch. -/
def loadMapData {α : Type} (c : Cache α) (now : Nat) (url : String)
    (net : FetchOutcome α) : LoadResult α :=
  match cacheGet c url with
  | some entry =>
      if now - entry.timestamp < CACHE_DURATION then ⟨.ok entry.data, c, false⟩
      else fetchAndCache c now url net
  | none => fetchAndCache c now url net

/-- One run of the periodic cleanup callback (api.js lines 136-150): delete
every entry with `now - value.timestamp > CACHE_DURATION`, keep the rest. -/
def sweep {α : Type} (c : Cache α) (now : Nat) : Cache α :=
  c.filter (fun kv => !(decide (now - kv.2.timestamp > CACHE_DURATION)))

/-- The cache states reachable from the initial empty `Map` by `loadMapData`
calls and sweep runs. -/
inductive CacheReachable {α : Type} : Cache α → Prop where
  | init : CacheReachable []
  | load (c : Cache α) (now : Nat) (url : String) (net : FetchOutcome α) :
      CacheReachable c → CacheReachable (loadMapData c now url net).cache
  | sweepStep (c : Cache α) (now : Nat) :
      CacheReachable c → CacheReachable (sweep c now)

/-! Embedding of the view-state controller, `src/App.jsx`. -/

/-- The `properties` of a GeoJSON feature as far as the filter reads them
(App.jsx lines 124-141); each field is optional because the object may lack
it, in which case the JS access yields `undefined`. -/
structure AntenaProps where
  operador : Option String
  tecnologia : Option String
deriving DecidableEq, Repr

/-- One antenna record; `properties` itself may be absent
(`antena.properties || ` the empty object). -/
structure Antena where
  properties : Option AntenaProps
deriving DecidableEq, Repr

/-- `const props = antena.properties || ` the empty object. -/
def getProps (a : Antena) : AntenaProps := a.properties.getD ⟨none, none⟩

/-- The operator/technology part of filter state (`filters.operador`,
`filters.tecnologia`); the empty string is the no-selection value. -/
structure Filters where
  operador : String
  tecnologia : String
deriving DecidableEq, Repr

/-- The filter predicate body (App.jsx lines 125-140): reject when a non-empty
operator selection differs from the record's operator, then likewise for the
technology, else accept.  A JS string is truthy exactly when non-empty. -/
def antenaPassesFilters (f : Filters) (a : Antena) : Bool :=
  let props := getProps a
  if f.operador != "" && props.operador != some f.operador then false
  else if f.tecnologia != "" && props.tecnologia != some f.tecnologia then false
  else true

/-- `filteredAntenas` (App.jsx lines 124-141): the displayed subset. -/
def filteredAntenas (antenas : List Antena) (f : Filters) : List Antena :=
  antenas.filter (antenaPassesFilters f)

/-- The response shape `handleViewportChange` reads: `data.features || []`. -/
structure MapResponse where
  features : Option (List Antena)
deriving DecidableEq, Repr

/-- `API_BASE` (App.jsx line 20), with no environment override present. -/
def API_BASE : String := "https://your-api.railway.app"

/-- The viewport reported by the map: a bounding box (already rendered to its
coordinate strings) and a zoom level. -/
structure Viewport where
  bbox : List String
  zoom : Int
deriving DecidableEq, Repr

/-- `zoom <= 10 ? '/map/clusters' : '/map/antenas'` (App.jsx line 161). -/
def viewportEndpoint (vp : Viewport) : String :=
  if vp.zoom ≤ 10 then "/map/clusters" else "/map/antenas"

/-- The `URLSearchParams` string built in `handleViewportChange`
(App.jsx lines 162-169): `bbox` and `zoom`, then the active filters. -/
def viewportParams (vp : Viewport) (f : Filters) : String :=
  "bbox=" ++ String.intercalate "," vp.bbox ++ "&zoom=" ++ toString vp.zoom
    ++ (if f.operador != "" then "&operador=" ++ f.operador else "")
    ++ (if f.tecnologia != "" then "&tecnologia=" ++ f.tecnologia else "")

/-- The full locator requested on a viewport change (App.jsx line 172). -/
def viewportUrl (vp : Viewport) (f : Filters) : String :=
  API_BASE ++ viewportEndpoint vp ++ "?" ++ viewportParams vp f

/-- The slice of `App` component state the embedded handlers touch. -/
structure AppState where
  antenas : List Antena
  stats : Option MapResponse
  loading : Bool
  error : Option String
  filters : Filters
deriving DecidableEq, Repr

/-- `handleViewportChange` (App.jsx lines 149-179): return unchanged on a null
viewport; otherwise request the viewport locator through `loadMapData`; on
success replace `antenas` with `data.features || []`; on failure only log —
the state, including the error flag, is left as it was. -/
def handleViewportChange (st : AppState) (c : Cache MapResponse) (now : Nat)
    (viewport : Option Viewport) (net : FetchOutcome MapResponse) :
    AppState × Cache MapResponse :=
  match viewport with
  | none => (st, c)
  | some vp =>
      let r := loadMapData c now (viewportUrl vp st.filters) net
      match r.result with
      | .ok data => ({ st with antenas := data.features.getD [] }, r.cache)
      | .error _ => (st, r.cache)

/-! Basic lemmas about the association-list cache. -/

theorem cacheGet_eq_none_iff {α : Type} (c : Cache α) (url : String) :
    cacheGet c url = none ↔ url ∉ c.map Prod.fst := by
  induction c with
  | nil => simp [cacheGet]
  | cons kv rest ih =>
      obtain ⟨k, v⟩ := kv
      by_cases h : k = url
      · subst h; simp [cacheGet]
      · rw [show cacheGet ((k, v) :: rest) url = cacheGet rest url by
          simp [cacheGet, h], ih]
        simp only [List.map_cons, List.mem_cons, not_or]
        constructor
        · intro hn; exact ⟨fun h2 => h h2.symm, hn⟩
        · exact And.right

theorem cacheGet_cacheSet_self {α : Type} (c : Cache α) (url : String)
    (e : CacheEntry α) : cacheGet (cacheSet c url e) url = some e := by
  induction c with
  | nil => simp [cacheSet, cacheGet]
  | cons kv rest ih =>
      obtain ⟨k, v⟩ := kv
      by_cases h : k = url <;> simp [cacheSet, cacheGet, h, ih]

theorem cacheGet_cacheSet_ne {α : Type} (c : Cache α) (url u : String)
    (e : CacheEntry α) (h : u ≠ url) :
    cacheGet (cacheSet c url e) u = cacheGet c u := by
  induction c with
  | nil =>
      have h2 : ¬ url = u := fun h2 => h h2.symm
      simp [cacheSet, cacheGet, h2]
  | cons kv rest ih =>
      obtain ⟨k, v⟩ := kv
      by_cases hk : k = url
      · subst hk
        have hku : ¬ k = u := fun h2 => h h2.symm
        simp [cacheSet, cacheGet, hku]
      · simp [cacheSet, cacheGet, hk, ih]

theorem mem_keys_cacheSet {α : Type} (c : Cache α) (url u : String)
    (e : CacheEntry α) :
    u ∈ (cacheSet c url e).map Prod.fst ↔ u ∈ c.map Prod.fst ∨ u = url := by
  induction c with
  | nil => simp [cacheSet]
  | cons kv rest ih =>
      obtain ⟨k, v⟩ := kv
      by_cases h : k = url
      · subst h; simp [cacheSet]; tauto
      · simp [cacheSet, h, ih]; tauto

theorem keysNodup_cacheSet {α : Type} (c : Cache α) (url : String)
    (e : CacheEntry α) (h : keysNodup c) : keysNodup (cacheSet c url e) := by
  induction c with
  | nil => simp [keysNodup, cacheSet]
  | cons kv rest ih =>
      obtain ⟨k, v⟩ := kv
      simp only [keysNodup, List.map_cons, List.nodup_cons] at h
      by_cases hk : k = url
      · subst hk
        rw [show cacheSet ((k, v) :: rest) k e = (k, e) :: rest by
          simp [cacheSet]]
        simp only [keysNodup, List.map_cons, List.nodup_cons]
        exact h
      · have ih2 := ih h.2
        simp only [cacheSet, if_neg hk]
        simp only [keysNodup, List.map_cons, List.nodup_cons]
        refine ⟨?_, ih2⟩
        intro hmem
        rcases (mem_keys_cacheSet rest url k e).1 hmem with h1 | h1
        · exact h.1 h1
        · exact hk h1

theorem keysNodup_sweep {α : Type} (c : Cache α) (now : Nat)
    (h : keysNodup c) : keysNodup (sweep c now) := by
  have hs : List.Sublist ((sweep c now).map Prod.fst) (c.map Prod.fst) :=
    List.Sublist.map Prod.fst (List.filter_sublist c)
  exact h.sublist hs

theorem sweep_cons {α : Type} (k : String) (v : CacheEntry α)
    (rest : List (String × CacheEntry α)) (now : Nat) :
    sweep ((k, v) :: rest) now =
      if now - v.timestamp > CACHE_DURATION then sweep rest now
      else (k, v) :: sweep rest now := by
  simp only [sweep, List.filter_cons]
  by_cases h : now - v.timestamp > CACHE_DURATION <;> simp [h]

theorem cacheGet_sweep {α : Type} (c : Cache α) (now : Nat) (url : String)
    (h : keysNodup c) :
    cacheGet (sweep c now) url =
      match cacheGet c url with
      | none => none
      | some e =>
          if now - e.timestamp > CACHE_DURATION then none else some e := by
  induction c with
  | nil => simp [sweep, cacheGet]
  | cons kv rest ih =>
      obtain ⟨k, v⟩ := kv
      simp only [keysNodup, List.map_cons, List.nodup_cons] at h
      have ih2 := ih h.2
      rw [sweep_cons]
      by_cases hstale : now - v.timestamp > CACHE_DURATION
      · rw [if_pos hstale]
        by_cases hk : k = url
        · subst hk
          have hnone : cacheGet rest k = none :=
            (cacheGet_eq_none_iff rest k).2 h.1
          rw [ih2, hnone]
          simp [cacheGet, hstale]
        · rw [show cacheGet ((k, v) :: rest) url = cacheGet rest url by
            simp [cacheGet, hk]]
          exact ih2
      · rw [if_neg hstale]
        by_cases hk : k = url
        · subst hk
          simp [cacheGet, hstale]
        · rw [show cacheGet ((k, v) :: rest) url = cacheGet rest url by
            simp [cacheGet, hk]]
          rw [show cacheGet ((k, v) :: sweep rest now) url
              = cacheGet (sweep rest now) url by simp [cacheGet, hk]]
          exact ih2

theorem cacheGet_sweep_of_kept {α : Type} (c : Cache α) (now : Nat)
    (url : String) (e : CacheEntry α) (hget : cacheGet c url = some e)
    (hfresh : ¬ now - e.timestamp > CACHE_DURATION) :
    cacheGet (sweep c now) url = some e := by
  induction c with
  | nil => simp [cacheGet] at hget
  | cons kv rest ih =>
      obtain ⟨k, v⟩ := kv
      rw [sweep_cons]
      by_cases hk : k = url
      · subst hk
        rw [show cacheGet ((k, v) :: rest) k = some v by simp [cacheGet]]
          at hget
        have hve := Option.some.inj hget
        subst hve
        rw [if_neg hfresh]
        simp [cacheGet]
      · rw [show cacheGet ((k, v) :: rest) url = cacheGet rest url by
          simp [cacheGet, hk]] at hget
        have ih2 := ih hget
        by_cases hstale : now - v.timestamp > CACHE_DURATION
        · rw [if_pos hstale]; exact ih2
        · rw [if_neg hstale]
          rw [show cacheGet ((k, v) :: sweep rest now) url
              = cacheGet (sweep rest now) url by simp [cacheGet, hk]]
          exact ih2

/-! Lemmas about the fetch path of `loadMapData`. -/

theorem loadMapData_of_miss {α : Type} (c : Cache α) (now : Nat) (url : String)
    (net : FetchOutcome α) (h : cacheGet c url = none) :
    loadMapData c now url net = fetchAndCache c now url net := by
  simp [loadMapData, h]

theorem loadMapData_of_stale {α : Type} (c : Cache α) (now : Nat)
    (url : String) (net : FetchOutcome α) (e : CacheEntry α)
    (h : cacheGet c url = some e)
    (hst : ¬ now - e.timestamp < CACHE_DURATION) :
    loadMapData c now url net = fetchAndCache c now url net := by
  simp [loadMapData, h, hst]

theorem loadMapData_of_fresh {α : Type} (c : Cache α) (now : Nat)
    (url : String) (net : FetchOutcome α) (e : CacheEntry α)
    (h : cacheGet c url = some e) (hf : now - e.timestamp < CACHE_DURATION) :
    loadMapData c now url net = ⟨.ok e.data, c, false⟩ := by
  simp [loadMapData, h, hf]

theorem fetchAndCache_rejects {α : Type} (c : Cache α) (now : Nat)
    (url name message : String) :
    fetchAndCache c now url (.rejects name message)
      = ⟨.error (classifyError name message), c, true⟩ := rfl

theorem fetchAndCache_badStatus {α : Type} (c : Cache α) (now : Nat)
    (url : String) (status : Nat) (text : String) (body : BodyResult α)
    (hok : responseOk status = false) :
    fetchAndCache c now url (.resolves status text body)
      = ⟨.error (classifyError "Error" (httpStatusMessage status text)),
          c, true⟩ := by
  simp [fetchAndCache, hok]

theorem fetchAndCache_parseError {α : Type} (c : Cache α) (now : Nat)
    (url : String) (status : Nat) (text m : String)
    (hok : responseOk status = true) :
    fetchAndCache c now url (.resolves status text (.parseError m))
      = ⟨.error (classifyError "SyntaxError" m), c, true⟩ := by
  simp [fetchAndCache, hok]

theorem fetchAndCache_success {α : Type} (c : Cache α) (now : Nat)
    (url : String) (status : Nat) (text : String) (d : α)
    (hok : responseOk status = true) :
    fetchAndCache c now url (.resolves status text (.parsed d))
      = ⟨.ok d, cacheSet c url ⟨d, now⟩, true⟩ := by
  simp [fetchAndCache, hok]

theorem fetchAndCache_networkAccess {α : Type} (c : Cache α) (now : Nat)
    (url : String) (net : FetchOutcome α) :
    (fetchAndCache c now url net).networkAccess = true := by
  cases net with
  | rejects name message => rfl
  | resolves status text body =>
      cases hok : responseOk status with
      | true => cases body <;> simp [fetchAndCache, hok]
      | false => simp [fetchAndCache, hok]

theorem fetchAndCache_error_cache {α : Type} (c : Cache α) (now : Nat)
    (url : String) (net : FetchOutcome α) (m : String)
    (h : (fetchAndCache c now url net).result = .error m) :
    (fetchAndCache c now url net).cache = c := by
  cases net with
  | rejects name message => rfl
  | resolves status text body =>
      cases hok : responseOk status with
      | true =>
          cases body with
          | parsed data => simp [fetchAndCache, hok] at h
          | parseError pm => simp [fetchAndCache, hok]
      | false => simp [fetchAndCache, hok]

theorem fetchAndCache_error_is_classified {α : Type} (c : Cache α) (now : Nat)
    (url : String) (net : FetchOutcome α) (m : String)
    (h : (fetchAndCache c now url net).result = .error m) :
    ∃ name message, m = classifyError name message := by
  cases net with
  | rejects name message =>
      refine ⟨name, message, ?_⟩
      simpa [fetchAndCache] using h.symm
  | resolves status text body =>
      cases hok : responseOk status with
      | true =>
          cases body with
          | parsed data => simp [fetchAndCache, hok] at h
          | parseError pm =>
              refine ⟨"SyntaxError", pm, ?_⟩
              rw [fetchAndCache_parseError c now url status text pm hok] at h
              exact (LoadOutcome.error.inj h.symm)
      | false =>
          refine ⟨"Error", httpStatusMessage status text, ?_⟩
          rw [fetchAndCache_badStatus c now url status text body hok] at h
          exact (LoadOutcome.error.inj h.symm)

/-! Lemmas about the error classifier and its four messages. -/

theorem string_data_append (s t : String) :
    (s ++ t).data = s.data ++ t.data := by
  cases s; cases t; rfl

theorem listStartsWith_nil_pat (l : List Char) :
    listStartsWith l [] = true := by
  cases l <;> rfl

theorem listStartsWith_append {l p : List Char} (r : List Char)
    (h : listStartsWith l p = true) : listStartsWith (l ++ r) p = true := by
  induction p generalizing l with
  | nil => exact listStartsWith_nil_pat _
  | cons b bs ih =>
      cases l with
      | nil => simp [listStartsWith] at h
      | cons a as =>
          simp only [listStartsWith, Bool.and_eq_true] at h
          simp only [List.cons_append, listStartsWith, Bool.and_eq_true]
          exact ⟨h.1, ih h.2⟩

theorem listContains_of_startsWith {l p : List Char}
    (h : listStartsWith l p = true) : listContains l p = true := by
  cases l with
  | nil =>
      cases p with
      | nil => rfl
      | cons b bs => simp [listStartsWith] at h
  | cons a as =>
      simp only [listContains, Bool.or_eq_true]
      exact Or.inl h

theorem strContains_of_startsWith (pre rest pat : String)
    (h : listStartsWith pre.data pat.data = true) :
    strContains (pre ++ rest) pat = true := by
  unfold strContains
  rw [string_data_append]
  exact listContains_of_startsWith (listStartsWith_append _ h)

theorem string_append_assoc (a b c : String) :
    a ++ b ++ c = a ++ (b ++ c) := by
  apply String.ext
  rw [string_data_append, string_data_append, string_data_append,
    string_data_append, List.append_assoc]

theorem strContains_httpStatusMessage (status : Nat) (statusText : String) :
    strContains (httpStatusMessage status statusText) "HTTP" = true := by
  unfold httpStatusMessage
  rw [string_append_assoc, string_append_assoc]
  exact strContains_of_startsWith _ _ _ (by decide)

theorem serverErrorMessage_startsWith (s : String) :
    listStartsWith (serverErrorMessage s).data "Error del".data = true := by
  unfold serverErrorMessage
  rw [string_data_append]
  exact listStartsWith_append _ (by decide)

theorem serverErrorMessage_ne_timeout (s : String) :
    serverErrorMessage s ≠ timeoutMessage := by
  intro h
  have h2 := serverErrorMessage_startsWith s
  rw [h] at h2
  exact absurd h2 (by decide)

theorem serverErrorMessage_ne_cancelled (s : String) :
    serverErrorMessage s ≠ cancelledMessage := by
  intro h
  have h2 := serverErrorMessage_startsWith s
  rw [h] at h2
  exact absurd h2 (by decide)

theorem serverErrorMessage_ne_connection (s : String) :
    serverErrorMessage s ≠ connectionMessage := by
  intro h
  have h2 := serverErrorMessage_startsWith s
  rw [h] at h2
  exact absurd h2 (by decide)

theorem classifyError_timeout (msg : String) :
    classifyError "TimeoutError" msg = timeoutMessage := rfl

theorem classifyError_abort (msg : String) :
    classifyError "AbortError" msg = cancelledMessage := by
  unfold classifyError
  rw [if_neg (by decide), if_pos rfl]

theorem classifyError_http (name msg : String) (h1 : name ≠ "TimeoutError")
    (h2 : name ≠ "AbortError") (h3 : strContains msg "HTTP" = true) :
    classifyError name msg = serverErrorMessage msg := by
  unfold classifyError
  rw [if_neg h1, if_neg h2, if_pos h3]

theorem classifyError_connection (name msg : String)
    (h1 : name ≠ "TimeoutError") (h2 : name ≠ "AbortError")
    (h3 : strContains msg "HTTP" = false) :
    classifyError name msg = connectionMessage := by
  unfold classifyError
  rw [if_neg h1, if_neg h2, if_neg (by simp [h3])]

theorem classifyError_shapes (name message : String) :
    classifyError name message = timeoutMessage ∨
    classifyError name message = cancelledMessage ∨
    (∃ s, classifyError name message = serverErrorMessage s) ∨
    classifyError name message = connectionMessage := by
  unfold classifyError
  split_ifs with h1 h2 h3
  · exact Or.inl rfl
  · exact Or.inr (Or.inl rfl)
  · exact Or.inr (Or.inr (Or.inl ⟨message, rfl⟩))
  · exact Or.inr (Or.inr (Or.inr rfl))

theorem keysNodup_fetchAndCache {α : Type} (c : Cache α) (now : Nat)
    (url : String) (net : FetchOutcome α) (h : keysNodup c) :
    keysNodup (fetchAndCache c now url net).cache := by
  cases net with
  | rejects name message => exact h
  | resolves status text body =>
      cases hok : responseOk status with
      | true =>
          cases body with
          | parsed d =>
              rw [fetchAndCache_success c now url status text d hok]
              exact keysNodup_cacheSet c url _ h
          | parseError m =>
              rw [fetchAndCache_parseError c now url status text m hok]
              exact h
      | false =>
          rw [fetchAndCache_badStatus c now url status text body hok]
          exact h

theorem keysNodup_loadMapData {α : Type} (c : Cache α) (now : Nat)
    (url : String) (net : FetchOutcome α) (h : keysNodup c) :
    keysNodup (loadMapData c now url net).cache := by
  cases hget : cacheGet c url with
  | some entry =>
      by_cases hf : now - entry.timestamp < CACHE_DURATION
      · rw [loadMapData_of_fresh c now url net entry hget hf]
        exact h
      · rw [loadMapData_of_stale c now url net entry hget hf]
        exact keysNodup_fetchAndCache c now url net h
  | none =>
      rw [loadMapData_of_miss c now url net hget]
      exact keysNodup_fetchAndCache c now url net h

theorem loadMapData_no_network {α : Type} (c : Cache α) (now : Nat)
    (url : String) (net : FetchOutcome α)
    (h : (loadMapData c now url net).networkAccess = false) :
    ∃ e, cacheGet c url = some e ∧ now - e.timestamp < CACHE_DURATION ∧
      loadMapData c now url net = ⟨.ok e.data, c, false⟩ := by
  cases hget : cacheGet c url with
  | some entry =>
      by_cases hf : now - entry.timestamp < CACHE_DURATION
      · exact ⟨entry, rfl, hf,
          loadMapData_of_fresh c now url net entry hget hf⟩
      · rw [loadMapData_of_stale c now url net entry hget hf,
          fetchAndCache_networkAccess] at h
        simp at h
  | none =>
      rw [loadMapData_of_miss c now url net hget,
        fetchAndCache_networkAccess] at h
      simp at h

theorem antenaPassesFilters_iff (f : Filters) (a : Antena) :
    antenaPassesFilters f a = true ↔
      (f.operador ≠ "" → (getProps a).operador = some f.operador) ∧
      (f.tecnologia ≠ "" → (getProps a).tecnologia = some f.tecnologia) := by
  unfold antenaPassesFilters
  by_cases h1 : f.operador = "" <;> by_cases h2 : f.tecnologia = "" <;>
    by_cases h3 : (getProps a).operador = some f.operador <;>
    by_cases h4 : (getProps a).tecnologia = some f.tecnologia <;>
    simp [h1, h2, h3, h4, bne_iff_ne]

/-! Claim theorems. -/

/-- C1: a cache entry younger than the 5-minute TTL is served as-is:
`loadMapData` returns the cached payload, reaches no network, and leaves the
cache unchanged.  In particular, starting from a cache with no entry for the
locator, a successful call followed by a second call within the TTL window
(no sweep in between) yields the same payload on the second call, with exactly
one network access across the two calls (the first call's). -/
theorem load_cache_hit_within_ttl {α : Type} :
    (∀ (c : Cache α) (now : Nat) (url : String) (net : FetchOutcome α)
       (e : CacheEntry α),
      cacheGet c url = some e → now - e.timestamp < CACHE_DURATION →
      loadMapData c now url net = ⟨.ok e.data, c, false⟩) ∧
    (∀ (c : Cache α) (t1 t2 : Nat) (url : String) (status : Nat)
       (text : String) (d : α) (net2 : FetchOutcome α),
      cacheGet c url = none → responseOk status = true →
      t2 - t1 < CACHE_DURATION →
      (loadMapData c t1 url (.resolves status text (.parsed d))).result
          = .ok d ∧
      (loadMapData c t1 url
          (.resolves status text (.parsed d))).networkAccess = true ∧
      loadMapData
          (loadMapData c t1 url (.resolves status text (.parsed d))).cache
          t2 url net2
        = ⟨.ok d,
            (loadMapData c t1 url (.resolves status text (.parsed d))).cache,
            false⟩) := by
  constructor
  · intro c now url net e hget hf
    exact loadMapData_of_fresh c now url net e hget hf
  · intro c t1 t2 url status text d net2 hmiss hok httl
    have h1 : loadMapData c t1 url (.resolves status text (.parsed d))
        = ⟨.ok d, cacheSet c url ⟨d, t1⟩, true⟩ := by
      rw [loadMapData_of_miss _ _ _ _ hmiss,
        fetchAndCache_success _ _ _ _ _ _ hok]
    refine ⟨by rw [h1], by rw [h1], ?_⟩
    rw [h1]
    exact loadMapData_of_fresh _ t2 url net2 ⟨d, t1⟩
      (cacheGet_cacheSet_self c url _) httl

theorem load_cache_hit_within_ttl_witness :
    loadMapData [("u", (⟨7, 0⟩ : CacheEntry Nat))] 1 "u"
        (.rejects "TypeError" "Failed to fetch")
      = ⟨.ok 7, [("u", ⟨7, 0⟩)], false⟩ ∧
    loadMapData
        (loadMapData ([] : Cache Nat) 100 "u"
          (.resolves 200 "OK" (.parsed 7))).cache
        200 "u" (.rejects "TypeError" "Failed to fetch")
      = ⟨.ok 7,
          (loadMapData ([] : Cache Nat) 100 "u"
            (.resolves 200 "OK" (.parsed 7))).cache, false⟩ :=
  ⟨load_cache_hit_within_ttl.1 [("u", ⟨7, 0⟩)] 1 "u"
      (.rejects "TypeError" "Failed to fetch") ⟨7, 0⟩ (by decide) (by decide),
   (load_cache_hit_within_ttl.2 [] 100 200 "u" 200 "OK" 7
      (.rejects "TypeError" "Failed to fetch") rfl (by decide)
      (by decide)).2.2⟩

/-- C2: at every cache state reachable from the empty cache by `loadMapData`
calls and sweep runs, the cache holds at most one entry per locator (its key
list has no duplicates); and whenever `loadMapData` answers without reaching
the network, the answer comes from an entry whose age at lookup time is
strictly below the 5-minute TTL. -/
theorem cache_invariants {α : Type} :
    (∀ c : Cache α, CacheReachable c → keysNodup c) ∧
    (∀ (c : Cache α) (now : Nat) (url : String) (net : FetchOutcome α),
      (loadMapData c now url net).networkAccess = false →
      ∃ e, cacheGet c url = some e ∧ now - e.timestamp < CACHE_DURATION ∧
        (loadMapData c now url net).result = .ok e.data) := by
  constructor
  · intro c hreach
    induction hreach with
    | init => simp [keysNodup]
    | load c now url net hr ih => exact keysNodup_loadMapData c now url net ih
    | sweepStep c now hr ih => exact keysNodup_sweep c now ih
  · intro c now url net h
    obtain ⟨e, hget, hf, heq⟩ := loadMapData_no_network c now url net h
    exact ⟨e, hget, hf, by rw [heq]⟩

theorem cache_invariants_witness :
    keysNodup ([] : Cache Nat) ∧
    ∃ e, cacheGet [("u", (⟨5, 0⟩ : CacheEntry Nat))] "u" = some e ∧
      1 - e.timestamp < CACHE_DURATION ∧
      (loadMapData [("u", (⟨5, 0⟩ : CacheEntry Nat))] 1 "u"
        (.rejects "x" "y")).result = .ok e.data :=
  ⟨cache_invariants.1 [] CacheReachable.init,
   cache_invariants.2 [("u", ⟨5, 0⟩)] 1 "u" (.rejects "x" "y") (by decide)⟩

/-- C4: a `loadMapData` call that fails — whatever the failure — leaves the
cache exactly as it was, stale entries for the requested locator included. -/
theorem load_failure_preserves_cache {α : Type} (c : Cache α) (now : Nat)
    (url : String) (net : FetchOutcome α) (m : String)
    (h : (loadMapData c now url net).result = .error m) :
    (loadMapData c now url net).cache = c := by
  cases hget : cacheGet c url with
  | some entry =>
      by_cases hf : now - entry.timestamp < CACHE_DURATION
      · rw [loadMapData_of_fresh c now url net entry hget hf] at h
        simp at h
      · rw [loadMapData_of_stale c now url net entry hget hf] at h ⊢
        exact fetchAndCache_error_cache c now url net m h
  | none =>
      rw [loadMapData_of_miss c now url net hget] at h ⊢
      exact fetchAndCache_error_cache c now url net m h

theorem load_failure_preserves_cache_witness :
    (loadMapData [("u", (⟨5, 0⟩ : CacheEntry Nat))] 1000000000 "u"
      (.rejects "TypeError" "Failed to fetch")).cache
      = [("u", ⟨5, 0⟩)] :=
  load_failure_preserves_cache [("u", ⟨5, 0⟩)] 1000000000 "u"
    (.rejects "TypeError" "Failed to fetch") connectionMessage (by decide)

/-- C5: the periodic sweep (scheduled every `SWEEP_INTERVAL_MS` = 60
seconds) removes exactly the entries whose age strictly exceeds the TTL at
sweep time: on a duplicate-free cache, after `sweep c now` a locator maps to
nothing if its entry was stale (`now - timestamp > CACHE_DURATION`) or absent,
and otherwise maps to the very same unmodified entry as before. -/
theorem sweep_removes_exactly_expired {α : Type} (c : Cache α) (now : Nat)
    (h : keysNodup c) :
    SWEEP_INTERVAL_MS = 60000 ∧
    ∀ url, cacheGet (sweep c now) url =
      match cacheGet c url with
      | none => none
      | some e =>
          if now - e.timestamp > CACHE_DURATION then none else some e :=
  ⟨rfl, fun url => cacheGet_sweep c now url h⟩

theorem sweep_removes_exactly_expired_witness :
    cacheGet (sweep [("a", (⟨1, 0⟩ : CacheEntry Nat)),
        ("b", ⟨2, 400000⟩)] 600000) "a" = none ∧
    cacheGet (sweep [("a", (⟨1, 0⟩ : CacheEntry Nat)),
        ("b", ⟨2, 400000⟩)] 600000) "b" = some ⟨2, 400000⟩ := by
  constructor
  · rw [(sweep_removes_exactly_expired [("a", (⟨1, 0⟩ : CacheEntry Nat)),
      ("b", ⟨2, 400000⟩)] 600000 (by unfold keysNodup; decide)).2 "a"]
    decide
  · rw [(sweep_removes_exactly_expired [("a", (⟨1, 0⟩ : CacheEntry Nat)),
      ("b", ⟨2, 400000⟩)] 600000 (by unfold keysNodup; decide)).2 "b"]
    decide

/-- C3: every failure of `loadMapData` is normalized to one of four distinct
stable messages: a fetch rejecting with a `TimeoutError` yields the timeout
message; a fetch rejecting with an `AbortError` (cancellation) yields the
cancelled message; a non-success HTTP status yields the server-error message,
which contains the status; and any other rejection whose message does not
mention HTTP yields the connection message.  Every error result has one of
the four shapes, and the four messages are pairwise distinct. -/
theorem load_error_taxonomy {α : Type} :
    (∀ (c : Cache α) (now : Nat) (url msg : String),
      cacheGet c url = none →
      (loadMapData c now url (.rejects "TimeoutError" msg)).result
        = .error timeoutMessage) ∧
    (∀ (c : Cache α) (now : Nat) (url msg : String),
      cacheGet c url = none →
      (loadMapData c now url (.rejects "AbortError" msg)).result
        = .error cancelledMessage) ∧
    (∀ (c : Cache α) (now : Nat) (url : String) (status : Nat)
       (text : String) (body : BodyResult α),
      cacheGet c url = none → responseOk status = false →
      (loadMapData c now url (.resolves status text body)).result
          = .error (serverErrorMessage (httpStatusMessage status text)) ∧
      ∃ pre post, serverErrorMessage (httpStatusMessage status text)
          = pre ++ (toString status ++ post)) ∧
    (∀ (c : Cache α) (now : Nat) (url name msg : String),
      cacheGet c url = none → name ≠ "TimeoutError" → name ≠ "AbortError" →
      strContains msg "HTTP" = false →
      (loadMapData c now url (.rejects name msg)).result
        = .error connectionMessage) ∧
    (∀ (c : Cache α) (now : Nat) (url : String) (net : FetchOutcome α)
       (m : String),
      (loadMapData c now url net).result = .error m →
      m = timeoutMessage ∨ m = cancelledMessage ∨
        (∃ s, m = serverErrorMessage s) ∨ m = connectionMessage) ∧
    (REQUEST_TIMEOUT_MS = 10000 ∧
      timeoutMessage ≠ cancelledMessage ∧ timeoutMessage ≠ connectionMessage ∧
      cancelledMessage ≠ connectionMessage ∧
      ∀ s, serverErrorMessage s ≠ timeoutMessage ∧
        serverErrorMessage s ≠ cancelledMessage ∧
        serverErrorMessage s ≠ connectionMessage) := by
  refine ⟨?_, ?_, ?_, ?_, ?_, ?_⟩
  · intro c now url msg h
    rw [loadMapData_of_miss _ _ _ _ h, fetchAndCache_rejects]
    simp [classifyError_timeout]
  · intro c now url msg h
    rw [loadMapData_of_miss _ _ _ _ h, fetchAndCache_rejects]
    simp [classifyError_abort]
  · intro c now url status text body h hok
    constructor
    · rw [loadMapData_of_miss _ _ _ _ h,
        fetchAndCache_badStatus _ _ _ _ _ _ hok]
      simp [classifyError_http "Error" _ (by decide) (by decide)
        (strContains_httpStatusMessage status text)]
    · refine ⟨"Error del servidor: HTTP ", ": " ++ text, ?_⟩
      have hsplit : ("Error del servidor: HTTP " : String)
          = "Error del servidor: " ++ "HTTP " := by decide
      unfold serverErrorMessage httpStatusMessage
      rw [hsplit]
      apply String.ext
      simp [string_data_append, List.append_assoc]
  · intro c now url name msg h h1 h2 h3
    rw [loadMapData_of_miss _ _ _ _ h, fetchAndCache_rejects]
    simp [classifyError_connection name msg h1 h2 h3]
  · intro c now url net m h
    have hcl : ∃ name message, m = classifyError name message := by
      cases hget : cacheGet c url with
      | some entry =>
          by_cases hf : now - entry.timestamp < CACHE_DURATION
          · rw [loadMapData_of_fresh c now url net entry hget hf] at h
            simp at h
          · rw [loadMapData_of_stale c now url net entry hget hf] at h
            exact fetchAndCache_error_is_classified c now url net m h
      | none =>
          rw [loadMapData_of_miss c now url net hget] at h
          exact fetchAndCache_error_is_classified c now url net m h
    obtain ⟨name, message, hm⟩ := hcl
    rw [hm]
    exact classifyError_shapes name message
  · refine ⟨rfl, by decide, by decide, by decide, fun s => ?_⟩
    exact ⟨serverErrorMessage_ne_timeout s, serverErrorMessage_ne_cancelled s,
      serverErrorMessage_ne_connection s⟩

theorem load_error_taxonomy_witness :
    (loadMapData ([] : Cache Nat) 0 "u" (.rejects "TimeoutError" "x")).result
        = .error timeoutMessage ∧
    (loadMapData ([] : Cache Nat) 0 "u" (.rejects "AbortError" "x")).result
        = .error cancelledMessage ∧
    (loadMapData ([] : Cache Nat) 0 "u"
        (.resolves 404 "Not Found" (.parsed 0))).result
        = .error (serverErrorMessage (httpStatusMessage 404 "Not Found")) ∧
    (loadMapData ([] : Cache Nat) 0 "u"
        (.rejects "TypeError" "Failed to fetch")).result
        = .error connectionMessage :=
  ⟨load_error_taxonomy.1 [] 0 "u" "x" rfl,
   load_error_taxonomy.2.1 [] 0 "u" "x" rfl,
   (load_error_taxonomy.2.2.1 [] 0 "u" 404 "Not Found" (.parsed 0) rfl
      (by decide)).1,
   load_error_taxonomy.2.2.2.1 [] 0 "u" "TypeError" "Failed to fetch" rfl
      (by decide) (by decide) (by decide)⟩

/-- C6: a stale cache entry is never updated in place.  A `loadMapData` call
that finds the entry stale and fetches successfully replaces it, under the
same key, by a brand-new entry carrying the fresh payload and the current
timestamp, leaving every other locator untouched; and the periodic sweep
deletes an entry whose age strictly exceeds the TTL. -/
theorem stale_entry_lifecycle {α : Type} :
    (∀ (c : Cache α) (now : Nat) (url : String) (e : CacheEntry α)
       (status : Nat) (text : String) (d : α),
      cacheGet c url = some e → ¬ now - e.timestamp < CACHE_DURATION →
      responseOk status = true →
      (loadMapData c now url
          (.resolves status text (.parsed d))).networkAccess = true ∧
      (loadMapData c now url (.resolves status text (.parsed d))).result
          = .ok d ∧
      cacheGet
          (loadMapData c now url (.resolves status text (.parsed d))).cache
          url = some ⟨d, now⟩ ∧
      ∀ u, u ≠ url →
        cacheGet
            (loadMapData c now url (.resolves status text (.parsed d))).cache
            u = cacheGet c u) ∧
    (∀ (c : Cache α) (now : Nat) (url : String) (e : CacheEntry α),
      keysNodup c → cacheGet c url = some e →
      now - e.timestamp > CACHE_DURATION →
      cacheGet (sweep c now) url = none) := by
  constructor
  · intro c now url e status text d hget hstale hok
    have h1 : loadMapData c now url (.resolves status text (.parsed d))
        = ⟨.ok d, cacheSet c url ⟨d, now⟩, true⟩ := by
      rw [loadMapData_of_stale c now url _ e hget hstale,
        fetchAndCache_success _ _ _ _ _ _ hok]
    rw [h1]
    exact ⟨rfl, rfl, cacheGet_cacheSet_self c url _,
      fun u hu => cacheGet_cacheSet_ne c url u _ hu⟩
  · intro c now url e hnodup hget hstale
    rw [cacheGet_sweep c now url hnodup, hget]
    simp [hstale]

theorem stale_entry_lifecycle_witness :
    cacheGet
        (loadMapData [("u", (⟨5, 0⟩ : CacheEntry Nat))] 600000 "u"
          (.resolves 200 "OK" (.parsed 9))).cache "u"
      = some ⟨9, 600000⟩ ∧
    cacheGet (sweep [("u", (⟨5, 0⟩ : CacheEntry Nat))] 600000) "u" = none :=
  ⟨(stale_entry_lifecycle.1 [("u", ⟨5, 0⟩)] 600000 "u" ⟨5, 0⟩ 200 "OK" 9
      (by decide) (by decide) (by decide)).2.2.1,
   stale_entry_lifecycle.2 [("u", ⟨5, 0⟩)] 600000 "u" ⟨5, 0⟩
      (by unfold keysNodup; decide) (by decide) (by decide)⟩

/-- C10: at the exact freshness boundary (entry age equal to the TTL),
`loadMapData` treats the entry as stale and goes to the network, while the
sweep — whose removal condition is strict — keeps the very same entry. -/
theorem ttl_boundary_stale_but_unswept {α : Type} (c : Cache α) (now : Nat)
    (url : String) (e : CacheEntry α) (net : FetchOutcome α)
    (hget : cacheGet c url = some e)
    (hage : now - e.timestamp = CACHE_DURATION) :
    (loadMapData c now url net).networkAccess = true ∧
    cacheGet (sweep c now) url = some e := by
  constructor
  · have hst : ¬ now - e.timestamp < CACHE_DURATION := by
      rw [hage]; exact lt_irrefl _
    rw [loadMapData_of_stale c now url net e hget hst]
    exact fetchAndCache_networkAccess c now url net
  · exact cacheGet_sweep_of_kept c now url e hget
      (by rw [hage]; exact lt_irrefl _)

theorem ttl_boundary_stale_but_unswept_witness :
    (loadMapData [("u", (⟨3, 100⟩ : CacheEntry Nat))] 300100 "u"
        (.rejects "x" "y")).networkAccess = true ∧
    cacheGet (sweep [("u", (⟨3, 100⟩ : CacheEntry Nat))] 300100) "u"
      = some ⟨3, 100⟩ :=
  ttl_boundary_stale_but_unswept [("u", ⟨3, 100⟩)] 300100 "u" ⟨3, 100⟩
    (.rejects "x" "y") (by decide) (by decide)

/-- C7 counterexample: on a success-status response whose body fails to
parse, `loadMapData` does not surface the raw parse error unclassified — the
catch block catches the thrown `SyntaxError` and, its name being neither
`TimeoutError` nor `AbortError` and its message not containing "HTTP", maps
it to the `ConnectionError` message, one of the four classified kinds. -/
theorem parse_failure_classified_counterexample :
    (loadMapData ([] : Cache Nat) 0 "u"
        (.resolves 200 "OK"
          (.parseError "Unexpected token u in JSON at position 0"))).result
        = .error connectionMessage ∧
    (loadMapData ([] : Cache Nat) 0 "u"
        (.resolves 200 "OK"
          (.parseError "Unexpected token u in JSON at position 0"))).result
        ≠ .error "Unexpected token u in JSON at position 0" := by
  constructor
  · decide
  · decide

/-- C7 (amended): a parse failure on a success-status response does not
surface as an unhandled parse error; it is caught by the same catch block and
normalized like every other failure — to the `ConnectionError` message
whenever the parse message does not itself contain "HTTP" (a parse message
containing "HTTP" would instead be reported as the `ServerError` message). -/
theorem parse_failure_maps_to_connection_error {α : Type} (c : Cache α)
    (now : Nat) (url : String) (status : Nat) (text msg : String)
    (hmiss : cacheGet c url = none) (hok : responseOk status = true)
    (hmsg : strContains msg "HTTP" = false) :
    (loadMapData c now url (.resolves status text (.parseError msg))).result
      = .error connectionMessage := by
  rw [loadMapData_of_miss _ _ _ _ hmiss,
    fetchAndCache_parseError _ _ _ _ _ _ hok]
  simp [classifyError_connection "SyntaxError" msg (by decide) (by decide)
    hmsg]

theorem parse_failure_maps_to_connection_error_witness :
    (loadMapData ([] : Cache Nat) 5 "v"
        (.resolves 200 "OK" (.parseError "bad json"))).result
      = .error connectionMessage :=
  parse_failure_maps_to_connection_error [] 5 "v" 200 "OK" "bad json" rfl
    (by decide) (by decide)

/-- C8: the displayed subset `filteredAntenas` holds exactly the records
matching every non-empty selection: a record is in the filtered list iff it
belongs to the data set, a non-empty operator selection equals its operator
attribute, and a non-empty technology selection equals its technology
attribute; an empty selection imposes no constraint. -/
theorem filteredAntenas_spec (antenas : List Antena) (f : Filters)
    (a : Antena) :
    a ∈ filteredAntenas antenas f ↔
      a ∈ antenas ∧
        (f.operador ≠ "" → (getProps a).operador = some f.operador) ∧
        (f.tecnologia ≠ "" → (getProps a).tecnologia = some f.tecnologia) := by
  unfold filteredAntenas
  rw [List.mem_filter, antenaPassesFilters_iff]

/-- C9: when a viewport-driven reload fails with any error, the controller
swallows the failure: after `handleViewportChange` the antennas list equals
its prior value and the error flag is exactly what it was (never set). -/
theorem viewport_failure_swallowed (st : AppState) (c : Cache MapResponse)
    (now : Nat) (vp : Viewport) (net : FetchOutcome MapResponse) (m : String)
    (h : (loadMapData c now (viewportUrl vp st.filters) net).result
        = .error m) :
    (handleViewportChange st c now (some vp) net).1.antenas = st.antenas ∧
    (handleViewportChange st c now (some vp) net).1.error = st.error := by
  simp only [handleViewportChange]
  rw [h]
  exact ⟨rfl, rfl⟩

theorem viewport_failure_swallowed_witness :
    (handleViewportChange ⟨[], none, false, none, ⟨"", ""⟩⟩ [] 0
        (some ⟨["1", "2"], 5⟩)
        (.rejects "TypeError" "Failed to fetch")).1.antenas = [] ∧
    (handleViewportChange ⟨[], none, false, none, ⟨"", ""⟩⟩ [] 0
        (some ⟨["1", "2"], 5⟩)
        (.rejects "TypeError" "Failed to fetch")).1.error = none :=
  viewport_failure_swallowed ⟨[], none, false, none, ⟨"", ""⟩⟩ [] 0
    ⟨["1", "2"], 5⟩ (.rejects "TypeError" "Failed to fetch")
    connectionMessage (by decide)

end SpainTowers
